import Mathlib

/-!
Verification development for the eva-mental-health-app inference-and-routing
core. JavaScript services are shallowly embedded: strings are Lean `String`
(scanned as lists of characters), case-insensitive substring matching is
`List.IsInfix` after mapping `Char.toLower`, fallible external collaborators
(database, generation service) are explicit `Option`/`Except` parameters, and
JavaScript numbers that only ever hold small integers or exact multiples of
0.5 are embedded as `Nat`/`Int`/`ℚ` as noted at each definition.
-/

/-- Case-insensitive preparation of a message: `message.toLowerCase()` viewed
as a list of characters (`Char.toLower` agrees with JavaScript `toLowerCase`
on the ASCII keyword alphabet used throughout the services). -/
def lowerList (s : String) : List Char := s.toList.map Char.toLower

/-- JavaScript `hay.includes(needle)`: substring occurrence. -/
def listIncludes (hay needle : List Char) : Bool := decide (needle <:+: hay)

/-- The fixed keyword table of `safetyService.js` (`CRISIS_KEYWORDS`). -/
structure CrisisKeywords where
  high_risk : List String
  moderate_risk : List String
  self_harm : List String

/-- `CRISIS_KEYWORDS` of `safetyService.js`, lines 4-16. -/
def CRISIS_KEYWORDS : CrisisKeywords :=
  { high_risk := ["suicide", "kill myself", "end my life", "not worth living",
                  "better off dead", "want to die", "no reason to live"]
    moderate_risk := ["hopeless", "worthless", "cant go on", "give up",
                      "no point", "empty", "numb", "cant take it"]
    self_harm := ["hurt myself", "cutting", "self harm", "punish myself"] }

/-- Caller-supplied emotional state (`emotionalState` in `safetyService.js`);
`intensity` is an integer 1-10 in the data model. -/
structure EmotionalState where
  primary_emotion : String
  intensity : Int
deriving DecidableEq

/-- The ordinal risk classification of `assessCrisisRisk`. -/
inductive RiskLevel where
  | low
  | moderate
  | high
  | critical
deriving DecidableEq

/-- The result record of `assessCrisisRisk`. -/
structure CrisisAssessment where
  riskLevel : RiskLevel
  riskScore : Nat
  riskFactors : List String
deriving DecidableEq

/-- The high-risk keywords of `message.toLowerCase()` matched by the first
loop of `assessCrisisRisk` (lines 46-51), in list order. -/
def hiMatched (messageLower : List Char) : List String :=
  CRISIS_KEYWORDS.high_risk.filter (fun k => listIncludes messageLower k.toList)

/-- The moderate-risk keywords matched by the second loop (lines 54-59). -/
def moMatched (messageLower : List Char) : List String :=
  CRISIS_KEYWORDS.moderate_risk.filter (fun k => listIncludes messageLower k.toList)

/-- The self-harm keywords matched by the third loop (lines 62-67). -/
def shMatched (messageLower : List Char) : List String :=
  CRISIS_KEYWORDS.self_harm.filter (fun k => listIncludes messageLower k.toList)

/-- The keyword part of `riskScore`: 10 per matched high-risk keyword, 5 per
matched moderate-risk keyword, 7 per matched self-harm keyword. -/
def keywordScore (messageLower : List Char) : Nat :=
  10 * (hiMatched messageLower).length + 5 * (moMatched messageLower).length +
    7 * (shMatched messageLower).length

/-- The keyword part of `riskFactors`, pushed in loop order. -/
def keywordFactors (messageLower : List Char) : List String :=
  (hiMatched messageLower).map (fun k => "high_risk_keyword: " ++ k) ++
    (moMatched messageLower).map (fun k => "moderate_risk_keyword: " ++ k) ++
    (shMatched messageLower).map (fun k => "self_harm_keyword: " ++ k)

/-- `emotionalState?.intensity >= 9` (line 70): absent state contributes
nothing. -/
def intensityHit (emotionalState : Option EmotionalState) : Bool :=
  match emotionalState with
  | some e => decide (9 ≤ e.intensity)
  | none => false

/-- The `primary_emotion` label scored at lines 76-80: `some` exactly when the
emotion is `hopelessness` or `despair`, carrying the emotion for the recorded
risk-factor label. -/
def emotionLabel (emotionalState : Option EmotionalState) : Option String :=
  match emotionalState with
  | some e =>
      if e.primary_emotion = "hopelessness" ∨ e.primary_emotion = "despair" then
        some e.primary_emotion
      else none
  | none => none

/-- The threshold classification of lines 83-92: score ≥ 15 critical, ≥ 10
high, ≥ 5 moderate, else low. -/
def levelFromScore (score : Nat) : RiskLevel :=
  if 15 ≤ score then RiskLevel.critical
  else if 10 ≤ score then RiskLevel.high
  else if 5 ≤ score then RiskLevel.moderate
  else RiskLevel.low

/-- `assessCrisisRisk(userId, message, emotionalState)` of `safetyService.js`,
lines 40-121. The database lookup of recent high/critical incidents (lines
95-114) is the injected `recentIncidents`: `none` models the caught query
error, `some n` the returned 24-hour incident count for the user. The
`userId` itself only parameterizes that query, so it does not appear. -/
def assessCrisisRisk (message : String) (emotionalState : Option EmotionalState)
    (recentIncidents : Option Nat) : CrisisAssessment :=
  let messageLower := lowerList message
  let score0 := keywordScore messageLower +
    (if intensityHit emotionalState then 5 else 0) +
    (match emotionLabel emotionalState with | some _ => 5 | none => 0)
  let factors0 := keywordFactors messageLower ++
    (if intensityHit emotionalState then ["extreme_emotional_intensity"] else []) ++
    (match emotionLabel emotionalState with
     | some e => ["high_risk_emotion: " ++ e]
     | none => [])
  let level0 := levelFromScore score0
  match recentIncidents with
  | some n =>
      if 0 < n then
        { riskLevel := if level0 = RiskLevel.moderate then RiskLevel.high else level0
          riskScore := score0 + 5
          riskFactors := factors0 ++ ["recent_crisis_history"] }
      else
        { riskLevel := level0, riskScore := score0, riskFactors := factors0 }
  | none => { riskLevel := level0, riskScore := score0, riskFactors := factors0 }

/-- One additive contribution to `riskScore`: a matched keyword of one of the
three lists, the extreme-intensity bonus, the high-risk-emotion bonus, or the
recent-crisis-history bonus. -/
inductive Contribution where
  | highKw (k : String)
  | modKw (k : String)
  | selfKw (k : String)
  | extremeIntensity
  | highRiskEmotion (e : String)
  | recentHistory
deriving DecidableEq

/-- The score added by each contribution in `assessCrisisRisk`: 10 per
high-risk keyword, 5 per moderate-risk keyword, 7 per self-harm keyword, 5
each for extreme intensity, high-risk emotion and recent crisis history. -/
def contributionWeight : Contribution → Nat
  | Contribution.highKw _ => 10
  | Contribution.modKw _ => 5
  | Contribution.selfKw _ => 7
  | Contribution.extremeIntensity => 5
  | Contribution.highRiskEmotion _ => 5
  | Contribution.recentHistory => 5

/-- The contributions matched by `assessCrisisRisk` on the given input, read
off in the order the source scores them. -/
def contribList (message : String) (emotionalState : Option EmotionalState)
    (recentIncidents : Option Nat) : List Contribution :=
  let messageLower := lowerList message
  (hiMatched messageLower).map Contribution.highKw ++
    (moMatched messageLower).map Contribution.modKw ++
    (shMatched messageLower).map Contribution.selfKw ++
    (if intensityHit emotionalState then [Contribution.extremeIntensity] else []) ++
    (match emotionLabel emotionalState with
     | some e => [Contribution.highRiskEmotion e]
     | none => []) ++
    (match recentIncidents with
     | some n => if 0 < n then [Contribution.recentHistory] else []
     | none => [])

/-- The matched contributions as a multiset: the order-forgetting set-with-
multiplicity of `contribList`. -/
def contribMultiset (message : String) (emotionalState : Option EmotionalState)
    (recentIncidents : Option Nat) : Multiset Contribution :=
  ↑(contribList message emotionalState recentIncidents)

/-- A message of a conversation history (`{role, content}` as consumed by the
services; timestamps are never read by the embedded logic). -/
structure Message where
  role : String
  content : String

/-- The result of `analyzeCrisisIndicators` in
`therapeuticConversationService.js`, lines 398-401. -/
structure CrisisIndicators where
  crisis_indicators : Bool
  severity : String

/-- The coarse keyword list of `analyzeCrisisIndicators`
(`therapeuticConversationService.js`, lines 384-387). Note it diverges from
`CRISIS_KEYWORDS.high_risk`: it lacks `end my life`, `not worth living`. -/
def routerCrisisKeywords : List String :=
  ["suicide", "kill myself", "want to die", "end it all", "no reason to live",
   "better off dead", "hurt myself", "self-harm", "cutting", "overdose"]

/-- `analyzeCrisisIndicators(userMessage, conversationHistory)` of
`therapeuticConversationService.js`, lines 383-402. `history.slice(-5)` is
the last five messages, i.e. `drop (length - 5)`. -/
def analyzeCrisisIndicators (userMessage : String) (conversationHistory : List Message) :
    CrisisIndicators :=
  let message := lowerList userMessage
  let hasCrisisKeywords := routerCrisisKeywords.any (fun k => listIncludes message k.toList)
  let recentMessages := conversationHistory.drop (conversationHistory.length - 5)
  let escalationPattern := recentMessages.any (fun msg =>
    routerCrisisKeywords.any (fun k => listIncludes (lowerList msg.content) k.toList))
  { crisis_indicators := hasCrisisKeywords || escalationPattern
    severity :=
      if hasCrisisKeywords then "high"
      else if escalationPattern then "moderate"
      else "low" }

/-- Which of the two response sources the `POST /message` route of
`routes/conversations.js` (lines 24-49) uses for a message. -/
inductive ResponsePath where
  | crisisSafety
  | generation
deriving DecidableEq

/-- The gate of the `POST /message` route: the fixed crisis response is
returned exactly when `analyzeCrisisIndicators` reports `crisis_indicators`;
otherwise `generateTherapeuticResponse` is invoked and its result returned
(lines 27-49 of `routes/conversations.js`). `assessCrisisRisk` is not
consulted on this path. -/
def messageRoutePath (message : String) (conversationHistory : List Message) : ResponsePath :=
  if (analyzeCrisisIndicators message conversationHistory).crisis_indicators then
    ResponsePath.crisisSafety
  else
    ResponsePath.generation

/-- A therapeutic-modality configuration
(`this.therapeuticModalities` in `therapeuticConversationService.js`, lines
16-112). Only the `name` field is read by the embedded operations (the
fallback lookup keys on it); prompt fragments, exercises and style dials of
the table feed the external generation collaborator only. -/
structure Modality where
  name : String
deriving DecidableEq

/-- The five entries of `this.therapeuticModalities`, keyed as in the source. -/
def therapeuticModalities : List (String × Modality) :=
  [("cbt", { name := "Cognitive Behavioral Therapy" }),
   ("humanistic", { name := "Humanistic Therapy" }),
   ("mindfulness", { name := "Mindfulness & Acceptance Therapy" }),
   ("psychodynamic", { name := "Psychodynamic Therapy" }),
   ("existential", { name := "Existential Therapy" })]

/-- The five fixed modality-keyed fallback sentences
(`getModalityFallbackResponse`, lines 356-362). -/
def fallbackResponses : List (String × String) :=
  [("cbt", "I notice you\'re sharing some challenging thoughts. Would you be open to exploring what might be contributing to these patterns?"),
   ("humanistic", "I hear you, and I want you to know that your experience matters. What feels most important to you right now?"),
   ("mindfulness", "I sense you\'re going through something difficult. What would it be like to simply notice these feelings without trying to change them?"),
   ("psychodynamic", "I wonder if there might be deeper patterns at play here. What comes to mind when you reflect on this?"),
   ("existential", "This sounds like it touches on some fundamental questions. What meaning are you finding in this experience?")]

/-- `getModalityFallbackResponse(modality, userMessage)` (lines 355-365): the
lookup key is `modality.name.toLowerCase().split(' ')[0]`, and a missing key
falls back to the `humanistic` sentence (always present in the table, so the
final `getD` default is never used). -/
def getModalityFallbackResponse (modality : Modality) : String :=
  let key := String.mk ((lowerList modality.name).takeWhile (fun c => c ≠ ' '))
  (fallbackResponses.lookup key).getD ((fallbackResponses.lookup "humanistic").getD "")

/-- `generateModalitySpecificResponse` (lines 187-214): the prompt and
history are handed to the external generation collaborator, whose outcome is
the injected `genResult`; on success its text is returned unchanged, and any
error or timeout is caught and replaced by the modality-keyed fallback
sentence. -/
def generateModalitySpecificResponse (modality : Modality)
    (genResult : Except Unit String) : String :=
  match genResult with
  | Except.ok text => text
  | Except.error _ => getModalityFallbackResponse modality

/-- JavaScript `s.replace(/pat/g, rep)` on character lists, by fuel recursion
(each step consumes at least one character, so `fuel = s.length` always
suffices): scan left to right, replace every non-overlapping occurrence, do
not rescan the replacement text. -/
def replaceFuel (pat rep : List Char) : Nat → List Char → List Char
  | _, [] => []
  | 0, s => s
  | fuel + 1, c :: t =>
    if !pat.isEmpty && pat.isPrefixOf (c :: t) then
      rep ++ replaceFuel pat rep fuel ((c :: t).drop pat.length)
    else
      c :: replaceFuel pat rep fuel t

/-- `s.replace(/pat/g, rep)` for strings. -/
def strReplace (s pat rep : String) : String :=
  String.mk (replaceFuel pat.toList rep.toList s.toList.length s.toList)

/-- `makeLessDirect(response)` (`therapeuticConversationService.js`, lines
277-283): the four softening substitutions, applied in source order. -/
def makeLessDirect (response : String) : String :=
  strReplace
    (strReplace
      (strReplace
        (strReplace response "You should" "You might consider")
        "You need to" "It could be helpful to")
      "I recommend" "I wonder if")
    "Try this" "Perhaps you could explore"

/-- `makeMoreDirect(response)` (lines 288-294): the four fixed more-direct
substitutions, applied in source order. -/
def makeMoreDirect (response : String) : String :=
  strReplace
    (strReplace
      (strReplace
        (strReplace response "You might consider" "I recommend")
        "It could be helpful to" "You should")
      "I wonder if" "I suggest")
    "Perhaps you could explore" "Try this"

/-- A dynamically-typed style value as it occurs in the JavaScript profiles:
either a number (the table of `beliefModelingService.js`) or a string such as
`"low"`/`"high"`/`"very_high"` (the modality-config table). The strict
equality `===` of the source never identifies the two shapes. -/
inductive StyleVal where
  | num (n : Nat)
  | str (s : String)
deriving DecidableEq

/-- A communication-style tuple. The `structure` dial of the source is
`structureLevel` here because `structure` is a Lean keyword. -/
structure CommunicationStyle where
  directness : StyleVal
  warmth : StyleVal
  structureLevel : StyleVal
  pace : StyleVal
deriving DecidableEq

/-- The fixed warm-phrase pool of `increaseWarmth` (lines 300-306). -/
def warmPhrases : List String :=
  ["I hear you", "That sounds really challenging", "I appreciate you sharing that",
   "You\'re doing important work", "I\'m here with you"]

/-- JavaScript `s.split(sep)` on character lists, by fuel recursion (each
step consumes at least one character, so `fuel = s.length` suffices). -/
def splitOnFuel (sep : List Char) : Nat → List Char → List (List Char)
  | _, [] => [[]]
  | 0, s => [s]
  | fuel + 1, c :: t =>
    if !sep.isEmpty && sep.isPrefixOf (c :: t) then
      [] :: splitOnFuel sep fuel ((c :: t).drop sep.length)
    else
      match splitOnFuel sep fuel t with
      | [] => [[c]]
      | h :: rest => (c :: h) :: rest

/-- `s.split(sep)` for character lists. -/
def splitOnList (s sep : List Char) : List (List Char) := splitOnFuel sep s.length s

/-- `increaseWarmth(response)` (lines 299-318). The `Math.random()` draw that
picks one of the five warm phrases is the injected index `r`, making the
adaptation reproducible; `sentences.splice(1, 0, phrase)` inserts the phrase
after the first sentence. -/
def increaseWarmth (response : String) (r : Fin 5) : String :=
  if !(listIncludes response.toList "I hear you".toList) &&
      !(listIncludes response.toList "That sounds".toList) then
    let sentences := splitOnList response.toList ". ".toList
    if 1 < sentences.length then
      String.mk (List.intercalate ". ".toList
        (sentences.take 1 ++ [(warmPhrases.getD r.val "").toList] ++ sentences.drop 1))
    else response
  else response

/-- `adaptResponseToCommunicationStyle(response, communicationStyle)` (lines
254-272): a missing style returns the text unchanged; directness strictly
equal to the string `"low"` softens, strictly equal to `"high"` hardens;
warmth strictly equal to `"very_high"` inserts a warm phrase (`r` is the
injected random draw). -/
def adaptResponseToCommunicationStyle (response : String)
    (communicationStyle : Option CommunicationStyle) (r : Fin 5) : String :=
  match communicationStyle with
  | none => response
  | some style =>
    let adapted := response
    let adapted :=
      if style.directness = StyleVal.str "low" then makeLessDirect adapted
      else if style.directness = StyleVal.str "high" then makeMoreDirect adapted
      else adapted
    let adapted :=
      if style.warmth = StyleVal.str "very_high" then increaseWarmth adapted r
      else adapted
    adapted

/-- One entry of `CRISIS_RESOURCES` (`safetyService.js`, lines 19-38). -/
structure CrisisResource where
  name : String
  contact : String
  description : String
  type : String
deriving DecidableEq

/-- The three canonical crisis resources (`CRISIS_RESOURCES`). -/
def CRISIS_RESOURCES : List CrisisResource :=
  [{ name := "Crisis Text Line", contact := "Text HOME to 741741",
     description := "24/7 crisis support via text", type := "text" },
   { name := "National Suicide Prevention Lifeline", contact := "988",
     description := "24/7 phone support for crisis situations", type := "phone" },
   { name := "Emergency Services", contact := "911",
     description := "For immediate danger or medical emergency", type := "emergency" }]

/-- The result record of `getPersonalizedSafetyPlan`. -/
structure SafetyPlan where
  immediate_steps : List String
  coping_strategies : List String
  support_resources : List CrisisResource
  reminder : String
deriving DecidableEq

/-- The framework-keyed coping-strategy table of `getPersonalizedSafetyPlan`
(lines 184-205). Its keys are `cognitive_behavioral`, `humanistic`,
`mindfulness`, `psychodynamic` — there is no `cbt` key. -/
def copingStrategiesTable : List (String × List String) :=
  [("cognitive_behavioral",
    ["Challenge the thoughts: Write down evidence for and against your negative thoughts",
     "Behavioral activation: Do one small positive activity right now",
     "Problem-solving: Break down the overwhelming situation into smaller parts"]),
   ("humanistic",
    ["Self-compassion: Treat yourself with the same kindness you\'d show a friend",
     "Connect with your values: Remember what matters most to you",
     "Reach out: Share your feelings with someone who accepts you"]),
   ("mindfulness",
    ["Grounding: Notice 5 things you can see, 4 you can hear, 3 you can touch",
     "Breathing: Take 3 deep breaths, focusing only on the breath",
     "Observe without judgment: Notice your thoughts and feelings without fighting them"]),
   ("psychodynamic",
    ["Express emotions: Write or draw what you\'re feeling without censoring",
     "Identify patterns: Notice if this feeling connects to past experiences",
     "Seek understanding: Explore what this crisis might be telling you"])]

/-- `getPersonalizedSafetyPlan(userId)` (lines 172-235). The database profile
lookup is the injected argument: `Except.error` models the caught query
error (the default plan of the catch block), `Except.ok none` a user with no
profile row or no stored framework (`profile?.primary_framework` falsy, so
`'humanistic'`), and `Except.ok (some fw)` a stored framework `fw`. A
framework absent from the table falls back to the `humanistic` list
(`copingStrategies[framework] || copingStrategies.humanistic`; the final
`getD` default is never used since `humanistic` is always in the table). -/
def getPersonalizedSafetyPlan (profileLookup : Except Unit (Option String)) : SafetyPlan :=
  match profileLookup with
  | Except.error _ =>
      { immediate_steps :=
          ["Ensure your immediate safety", "Contact a crisis resource",
           "Reach out to someone you trust"]
        coping_strategies :=
          ["Take deep breaths", "Go to a safe place", "Use grounding techniques"]
        support_resources := CRISIS_RESOURCES
        reminder := "You are not alone. Help is available." }
  | Except.ok primaryFramework =>
      let framework := primaryFramework.getD "humanistic"
      { immediate_steps :=
          ["Ensure your immediate safety",
           "Remove any means of self-harm from your environment",
           "Contact a crisis resource or trusted person"]
        coping_strategies :=
          (copingStrategiesTable.lookup framework).getD
            ((copingStrategiesTable.lookup "humanistic").getD [])
        support_resources := CRISIS_RESOURCES
        reminder := "This intense feeling will pass. You have survived difficult times before." }

/-- The ten modality keyword lists of `localInferTherapeuticPreferences`
(`beliefModelingService.js`, lines 70-121), in the object's insertion order,
which is also the iteration order of `Object.keys`. -/
def patterns : List (String × List String) :=
  [("cbt",
    ["thought", "thinking", "belief", "evidence", "rational", "logical",
     "behavior", "pattern", "homework", "practice", "skill", "technique",
     "goal", "objective", "measure", "track", "progress", "solution"]),
   ("humanistic",
    ["feel", "feeling", "emotion", "growth", "potential", "authentic",
     "self", "acceptance", "understanding", "compassion", "whole",
     "experience", "meaning", "value", "choice", "freedom"]),
   ("mindfulness",
    ["present", "moment", "aware", "awareness", "notice", "observe",
     "accept", "acceptance", "breath", "body", "sensation", "mindful",
     "meditation", "peace", "calm", "let go", "non-judgment"]),
   ("psychodynamic",
    ["past", "childhood", "parent", "relationship", "pattern", "unconscious",
     "dream", "defense", "resistance", "transference", "insight",
     "understand", "explore", "deeper", "underlying", "root"]),
   ("existential",
    ["meaning", "purpose", "death", "freedom", "isolation", "authentic",
     "responsibility", "choice", "existence", "being", "nothingness",
     "anxiety", "dread", "courage", "create", "transcend"]),
   ("somatic",
    ["body", "sensation", "physical", "tense", "relax", "breath",
     "stomach", "chest", "shoulders", "jaw", "embodied", "grounding",
     "nervous system", "safety", "movement", "posture"]),
   ("solution_focused",
    ["solution", "future", "what works", "strengths", "resources",
     "scale", "better", "miracle", "exception", "success",
     "achieve", "improve", "positive", "different", "change"]),
   ("dialectical_behavioral",
    ["balance", "accept", "change", "both", "middle path", "skills",
     "distress", "tolerance", "regulate", "effective", "wise mind",
     "mindful", "interpersonal", "radical acceptance", "opposite action"]),
   ("narrative",
    ["story", "narrative", "reauthor", "externalize", "problem",
     "identity", "preferred", "unique outcome", "dominant story",
     "alternative", "meaning", "context", "influence", "agency"]),
   ("acceptance_commitment",
    ["values", "accept", "committed action", "flexibility", "workable",
     "defusion", "present", "willing", "choice", "vitality",
     "meaningful", "stuck", "struggle", "contact", "purpose"])]

/-- The counter a keyword list accumulates over a conversation history: one
hit per (user message, matching keyword) pair — only user-authored messages
are scanned, and several keywords may hit in the same message (lines
123-137; the change-belief counting of lines 170-183 is the same loop shape,
so it reuses this definition). -/
def indicatorScore (conversations : List Message) (keywords : List String) : Nat :=
  conversations.foldl
    (fun acc conv =>
      if conv.role = "user" then
        acc + (keywords.filter (fun k => listIncludes (lowerList conv.content) k.toList)).length
      else acc)
    0

/-- One step of the primary-modality fold (lines 143-148): replace the
running `(primaryModality, maxScore)` accumulator whenever the next
category's counter strictly exceeds `maxScore`. -/
def maxStep (acc p : String × Nat) : String × Nat := if acc.2 < p.2 then p else acc

/-- Each category paired with its counter over the history, in the iteration
order of lines 129-135 / 143. -/
def scoredPatterns (conversations : List Message) : List (String × Nat) :=
  patterns.map (fun p => (p.1, indicatorScore conversations p.2))

/-- The primary-modality fold of lines 139-148: start from the default
`("humanistic", 0)` and scan the categories in insertion order with
`maxStep`. Returns the chosen category together with `maxScore`. -/
def pickPrimary (conversations : List Message) : String × Nat :=
  (scoredPatterns conversations).foldl maxStep ("humanistic", 0)

/-- The amended claim-side characterization of the primary-modality choice,
written from the corrected specification words rather than from the fold:
the first category in iteration order whose counter equals the maximum
counter, and the fixed default `humanistic` when every counter is zero. It
is proved equal to the source fold in `primaryModality_first_at_max`. -/
def firstMaxModality (conversations : List Message) : String :=
  let scored := scoredPatterns conversations
  let m := (scored.map Prod.snd).foldr max 0
  if m = 0 then "humanistic"
  else ((scored.find? (fun p => p.2 == m)).map Prod.fst).getD "humanistic"

/-- The vulnerability-indicator keyword list (line 151). -/
def vulnerabilityIndicators : List String :=
  ["feel", "scared", "vulnerable", "honest", "truth", "shame", "guilt"]

/-- The vulnerability fold of lines 152-163, in half-point units so that the
exact JavaScript arithmetic on multiples of 0.5 is integer arithmetic: the
score starts at 5.0 (10 halves) and each hit adds 0.5 (1 half), clamped at
10.0 (20 halves) per step. -/
def vulnerabilityHalves (conversations : List Message) : Nat :=
  conversations.foldl
    (fun v conv =>
      if conv.role = "user" then
        vulnerabilityIndicators.foldl
          (fun v2 indicator =>
            if listIncludes (lowerList conv.content) indicator.toList then
              min (v2 + 1) 20
            else v2)
          v
      else v)
    10

/-- The gradual-change indicator list (line 166). -/
def gradualIndicators : List String := ["slowly", "gradually", "time", "process", "journey"]

/-- The breakthrough-change indicator list (line 167). -/
def breakthroughIndicators : List String :=
  ["breakthrough", "sudden", "realize", "epiphany", "transform"]

/-- The humanistic communication-style tuple (the table default). -/
def humanisticStyle : CommunicationStyle :=
  { directness := StyleVal.num 4, warmth := StyleVal.num 9,
    structureLevel := StyleVal.num 3, pace := StyleVal.num 5 }

/-- The fixed communication-style table of `inferCommunicationStyle`
(`beliefModelingService.js`, lines 202-267). -/
def styles : List (String × CommunicationStyle) :=
  [("cbt", { directness := StyleVal.num 8, warmth := StyleVal.num 6,
             structureLevel := StyleVal.num 9, pace := StyleVal.num 7 }),
   ("humanistic", humanisticStyle),
   ("mindfulness", { directness := StyleVal.num 5, warmth := StyleVal.num 7,
                     structureLevel := StyleVal.num 5, pace := StyleVal.num 3 }),
   ("psychodynamic", { directness := StyleVal.num 6, warmth := StyleVal.num 7,
                       structureLevel := StyleVal.num 6, pace := StyleVal.num 4 }),
   ("existential", { directness := StyleVal.num 7, warmth := StyleVal.num 6,
                     structureLevel := StyleVal.num 4, pace := StyleVal.num 5 }),
   ("somatic", { directness := StyleVal.num 5, warmth := StyleVal.num 8,
                 structureLevel := StyleVal.num 5, pace := StyleVal.num 2 }),
   ("solution_focused", { directness := StyleVal.num 7, warmth := StyleVal.num 7,
                          structureLevel := StyleVal.num 7, pace := StyleVal.num 8 }),
   ("dialectical_behavioral", { directness := StyleVal.num 6, warmth := StyleVal.num 7,
                                structureLevel := StyleVal.num 8, pace := StyleVal.num 6 }),
   ("narrative", { directness := StyleVal.num 5, warmth := StyleVal.num 8,
                   structureLevel := StyleVal.num 5, pace := StyleVal.num 4 }),
   ("acceptance_commitment", { directness := StyleVal.num 6, warmth := StyleVal.num 7,
                               structureLevel := StyleVal.num 6, pace := StyleVal.num 5 })]

/-- `inferCommunicationStyle(modality)`: table lookup defaulting to the
humanistic tuple (`styles[modality] || styles.humanistic`). -/
def inferCommunicationStyle (modality : String) : CommunicationStyle :=
  (styles.lookup modality).getD humanisticStyle

/-- The profile returned by `localInferTherapeuticPreferences`. `confidence`
is the exact rational carried by the JavaScript literal (0.8 or 0.6). -/
structure TherapeuticPreferences where
  primaryModality : String
  vulnerabilityComfort : Nat
  changeBeliefs : String
  communicationStyle : CommunicationStyle
  confidence : ℚ
  source : String
deriving DecidableEq

/-- `localInferTherapeuticPreferences(conversations)` of
`beliefModelingService.js`, lines 55-197. `Math.round` of a half-integer in
half units `v` is `(v + 1) / 2` in Nat division (JavaScript rounds halves
up). -/
def localInferTherapeuticPreferences (conversations : List Message) : TherapeuticPreferences :=
  let pick := pickPrimary conversations
  { primaryModality := pick.1
    vulnerabilityComfort := (vulnerabilityHalves conversations + 1) / 2
    changeBeliefs :=
      if indicatorScore conversations gradualIndicators <
          indicatorScore conversations breakthroughIndicators then
        "breakthrough"
      else "gradual"
    communicationStyle := inferCommunicationStyle pick.1
    confidence := if 5 < pick.2 then 0.8 else 0.6
    source := "local_detection" }

/-- The analysis record of `analyzeDialecticResponse` (`dialecticService`).
`therapeuticIndicators` lists the indicator keys the source sets to `true`,
in assignment order. -/
structure DialecticAnalysis where
  beliefs : List String
  insights : List String
  therapeuticIndicators : List String
deriving DecidableEq

/-- `analyzeDialecticResponse(response, focusArea)` of the dialectic service
(`therapeuticConversationService.js` companion file, lines 514-593): an
independent keyword rule set per focus area over the lowercased answer; a
focus area outside the five known ones yields the empty analysis (the
`switch` has no default case). -/
def analyzeDialecticResponse (response : String) (focusArea : String) : DialecticAnalysis :=
  let responseLower := lowerList response
  let inc := fun (w : String) => listIncludes responseLower w.toList
  match focusArea with
  | "therapeutic_approach" =>
      let b1 := inc "skill" || inc "tool" || inc "technique"
      let b2 := inc "relationship" || inc "understood" || inc "accepted"
      let b3 := inc "insight" || inc "understand" || inc "pattern"
      { beliefs :=
          (if b1 then ["Skills-based learning preference"] else []) ++
            (if b2 then ["Relationship-focused healing"] else []) ++
            (if b3 then ["Insight-oriented approach"] else [])
        insights := []
        therapeuticIndicators :=
          (if b1 then ["cbt"] else []) ++ (if b2 then ["humanistic"] else []) ++
            (if b3 then ["psychodynamic"] else []) }
  | "vulnerability" =>
      let v1 := inc "difficult" || inc "hard" || inc "scary"
      let v2 := inc "natural" || inc "easy" || inc "comfortable"
      { beliefs :=
          (if v1 then ["Vulnerability is challenging"] else []) ++
            (if v2 then ["High vulnerability comfort"] else [])
        insights :=
          (if v1 then ["May benefit from gradual trust-building"] else []) ++
            (if v2 then ["Ready for deeper therapeutic work"] else [])
        therapeuticIndicators := [] }
  | "change_beliefs" =>
      let g := inc "gradual" || inc "slow" || inc "time"
      let b := inc "sudden" || inc "breakthrough" || inc "realize"
      { beliefs :=
          (if g then ["Gradual change believer"] else []) ++
            (if b then ["Breakthrough change believer"] else [])
        insights :=
          (if g then ["May prefer consistent, incremental approaches"] else []) ++
            (if b then ["May respond well to insight-oriented work"] else [])
        therapeuticIndicators := [] }
  | "self_efficacy" =>
      let hasConfidence := ["confident", "capable", "strong", "able"].any inc
      let hasDoubt := ["overwhelmed", "helpless", "weak", "unable"].any inc
      { beliefs :=
          (if hasConfidence then ["High self-efficacy"] else []) ++
            (if hasDoubt then ["Low self-efficacy"] else [])
        insights :=
          (if hasConfidence then ["Strong foundation for self-directed work"] else []) ++
            (if hasDoubt then ["May benefit from strength-building focus"] else [])
        therapeuticIndicators := [] }
  | "meaning_making" =>
      let m1 := inc "lesson" || inc "growth" || inc "purpose"
      let m2 := inc "random" || inc "unfair" || inc "no reason"
      { beliefs :=
          (if m1 then ["Growth-oriented meaning maker"] else []) ++
            (if m2 then ["Struggles with meaning-making"] else [])
        insights := if m2 then ["May benefit from meaning-focused interventions"] else []
        therapeuticIndicators := if m1 then ["humanistic", "existential"] else [] }
  | _ => { beliefs := [], insights := [], therapeuticIndicators := [] }

/-- Helper: the sum of a constant-valued map. -/
theorem sum_map_constNat {α : Type} (l : List α) (c : Nat) :
    (l.map (fun _ => c)).sum = c * l.length := by
  induction l with
  | nil => simp
  | cons a t ih => simp [ih, Nat.mul_succ]; ring

/-- Helper: `find?` skips a block on which the predicate is everywhere false. -/
theorem find?_append_of_all_false {α : Type} (p : α → Bool) (l1 l2 : List α)
    (h : ∀ x ∈ l1, p x = false) : (l1 ++ l2).find? p = l2.find? p := by
  induction l1 with
  | nil => simp
  | cons a t ih =>
    simp only [List.cons_append, List.find?]
    rw [h a (by simp)]
    exact ih (fun x hx => h x (by simp [hx]))

/-- Helper: an upper bound of a list bounds its `foldr max 0`. -/
theorem foldr_max_le (l : List Nat) (b : Nat) (h : ∀ x ∈ l, x ≤ b) : l.foldr max 0 ≤ b := by
  induction l with
  | nil => simp
  | cons a t ih =>
    simp only [List.foldr]
    exact max_le (h a (by simp)) (ih fun x hx => h x (by simp [hx]))

/-- Helper: every member of a list is at most its `foldr max 0`. -/
theorem le_foldr_max (l : List Nat) (x : Nat) (h : x ∈ l) : x ≤ l.foldr max 0 := by
  induction l with
  | nil => simp at h
  | cons a t ih =>
    simp only [List.foldr]
    rcases List.mem_cons.mp h with rfl | hx
    · exact le_max_left _ _
    · exact le_trans (ih hx) (le_max_right _ _)

/-- Helper: the `maxStep` fold either keeps its accumulator (when nothing
strictly exceeds it) or lands on the first element of the list attaining the
list's strict maximum above the accumulator. -/
theorem foldl_maxStep_spec (l : List (String × Nat)) (acc : String × Nat) :
    (l.foldl maxStep acc = acc ∧ ∀ p ∈ l, p.2 ≤ acc.2) ∨
    (∃ t1 t2, l = t1 ++ l.foldl maxStep acc :: t2 ∧ acc.2 < (l.foldl maxStep acc).2 ∧
      (∀ p ∈ l, p.2 ≤ (l.foldl maxStep acc).2) ∧
      ∀ p ∈ t1, p.2 < (l.foldl maxStep acc).2) := by
  induction l generalizing acc with
  | nil => exact Or.inl ⟨rfl, by simp⟩
  | cons q t ih =>
    have hstep : (q :: t).foldl maxStep acc = t.foldl maxStep (maxStep acc q) := rfl
    by_cases hq : acc.2 < q.2
    · have hmq : maxStep acc q = q := by simp [maxStep, hq]
      rw [hstep, hmq]
      rcases ih q with ⟨heq, hall⟩ | ⟨t1, t2, hdec, hlt, hall, hpre⟩
      · refine Or.inr ⟨[], t, ?_, ?_, ?_, by simp⟩
        · simp [heq]
        · rw [heq]; exact hq
        · rw [heq]
          intro p hp
          rcases List.mem_cons.mp hp with rfl | hpt
          · exact le_refl _
          · exact hall p hpt
      · refine Or.inr ⟨q :: t1, t2, ?_, ?_, ?_, ?_⟩
        · rw [List.cons_append, ← hdec]
        · exact lt_trans hq hlt
        · intro p hp
          rcases List.mem_cons.mp hp with rfl | hpt
          · exact le_of_lt hlt
          · exact hall p hpt
        · intro p hp
          rcases List.mem_cons.mp hp with rfl | hpt
          · exact hlt
          · exact hpre p hpt
    · have hmq : maxStep acc q = acc := by simp [maxStep, hq]
      rw [hstep, hmq]
      rcases ih acc with ⟨heq, hall⟩ | ⟨t1, t2, hdec, hlt, hall, hpre⟩
      · refine Or.inl ⟨heq, ?_⟩
        intro p hp
        rcases List.mem_cons.mp hp with rfl | hpt
        · exact le_of_not_lt hq
        · exact hall p hpt
      · refine Or.inr ⟨q :: t1, t2, ?_, hlt, ?_, ?_⟩
        · rw [List.cons_append, ← hdec]
        · intro p hp
          rcases List.mem_cons.mp hp with rfl | hpt
          · exact le_trans (le_of_not_lt hq) (le_of_lt hlt)
          · exact hall p hpt
        · intro p hp
          rcases List.mem_cons.mp hp with rfl | hpt
          · exact lt_of_le_of_lt (le_of_not_lt hq) hlt
          · exact hpre p hpt

/-- C1. The spec invariant fails in the code: for the message
`"I want to end my life"` (empty history, no emotional state, no incident
history) the authoritative scorer `assessCrisisRisk` yields riskLevel
`high`, yet the `POST /message` route's gate — which consults only the
divergent keyword list of `analyzeCrisisIndicators`, never the scorer —
reports no crisis indicators and therefore invokes
`generateTherapeuticResponse` instead of the crisis/safety response. -/
theorem high_risk_message_bypasses_crisis_gate :
    (assessCrisisRisk "I want to end my life" none none).riskLevel = RiskLevel.high ∧
    (analyzeCrisisIndicators "I want to end my life" []).crisis_indicators = false ∧
    messageRoutePath "I want to end my life" [] = ResponsePath.generation := by
  decide

/-- C5. The empty conversation history yields the default local profile:
`primaryModality = humanistic`, `confidence = 0.6`, `vulnerabilityComfort =
5`, `changeBeliefs = gradual`. -/
theorem emptyHistory_default_profile :
    (localInferTherapeuticPreferences []).primaryModality = "humanistic" ∧
    (localInferTherapeuticPreferences []).confidence = 0.6 ∧
    (localInferTherapeuticPreferences []).vulnerabilityComfort = 5 ∧
    (localInferTherapeuticPreferences []).changeBeliefs = "gradual" :=
  ⟨rfl, rfl, rfl, rfl⟩

/-- C9. Any dialectic answer for focus area `vulnerability` whose lowercased
text contains `difficult`, `hard` or `scary` receives the belief tag
`Vulnerability is challenging` and the trust-building insight. -/
theorem vulnerability_difficult_yields_challenging_tag :
    ∀ (answer : String),
      (listIncludes (lowerList answer) "difficult".toList ||
          listIncludes (lowerList answer) "hard".toList ||
          listIncludes (lowerList answer) "scary".toList) = true →
      "Vulnerability is challenging" ∈ (analyzeDialecticResponse answer "vulnerability").beliefs ∧
      "May benefit from gradual trust-building" ∈
        (analyzeDialecticResponse answer "vulnerability").insights := by
  intro answer h
  simp only [analyzeDialecticResponse]
  rw [h]
  constructor
  · simp
  · simp

/-- C9 witness: the concrete scenario of the spec — the answer
`"it feels very difficult and scary to open up"` gets the tag and the
insight. -/
theorem vulnerability_difficult_yields_challenging_tag_witness :
    "Vulnerability is challenging" ∈
        (analyzeDialecticResponse "it feels very difficult and scary to open up"
          "vulnerability").beliefs ∧
      "May benefit from gradual trust-building" ∈
        (analyzeDialecticResponse "it feels very difficult and scary to open up"
          "vulnerability").insights :=
  vulnerability_difficult_yields_challenging_tag _ (by decide)

/-- C7. The modality-keyed fallback fails for `cbt` in the code: the lookup
key is the first word of the lowercased display name (`"cognitive"`), which
misses the table's own `cbt` entry, so a failed generation call for the cbt
modality returns the humanistic sentence (the error is still swallowed, and
the other four modalities do reach their own sentences, shown by the last
four equations). -/
theorem cbt_generation_fallback_is_humanistic_sentence :
    therapeuticModalities.lookup "cbt" = some { name := "Cognitive Behavioral Therapy" } ∧
    generateModalitySpecificResponse { name := "Cognitive Behavioral Therapy" }
        (Except.error ()) = (fallbackResponses.lookup "humanistic").getD "" ∧
    (fallbackResponses.lookup "cbt").isSome = true ∧
    fallbackResponses.lookup "cbt" ≠ fallbackResponses.lookup "humanistic" ∧
    generateModalitySpecificResponse { name := "Humanistic Therapy" } (Except.error ()) =
      (fallbackResponses.lookup "humanistic").getD "" ∧
    generateModalitySpecificResponse { name := "Mindfulness & Acceptance Therapy" }
        (Except.error ()) = (fallbackResponses.lookup "mindfulness").getD "" ∧
    generateModalitySpecificResponse { name := "Psychodynamic Therapy" } (Except.error ()) =
      (fallbackResponses.lookup "psychodynamic").getD "" ∧
    generateModalitySpecificResponse { name := "Existential Therapy" } (Except.error ()) =
      (fallbackResponses.lookup "existential").getD "" := by
  decide

/-- C8 counterexample: the coping-strategy table is not keyed by `cbt` — a
profile whose stored framework is literally `cbt` receives the humanistic
list, not a cbt-specific one (the cbt-flavoured list sits under the key
`cognitive_behavioral`). -/
theorem safetyPlan_cbt_key_gets_humanistic_list :
    (getPersonalizedSafetyPlan (Except.ok (some "cbt"))).coping_strategies =
      (copingStrategiesTable.lookup "humanistic").getD [] ∧
    copingStrategiesTable.lookup "cbt" = none ∧
    copingStrategiesTable.lookup "humanistic" ≠
      copingStrategiesTable.lookup "cognitive_behavioral" := by
  decide

/-- C8 (amended). The coping-strategy table is keyed by
`cognitive_behavioral`, `humanistic`, `mindfulness`, `psychodynamic`; any
other stored framework (including `cbt`) receives the humanistic list, while
`immediate_steps` and `support_resources` (the three canonical crisis
resources) are the same fixed lists for every framework. -/
theorem personalizedSafetyPlan_table :
    ∀ (fw : String),
      ((fw = "cognitive_behavioral" ∨ fw = "humanistic" ∨ fw = "mindfulness" ∨
          fw = "psychodynamic") →
        (getPersonalizedSafetyPlan (Except.ok (some fw))).coping_strategies =
          (copingStrategiesTable.lookup fw).getD []) ∧
      (fw ≠ "cognitive_behavioral" → fw ≠ "humanistic" → fw ≠ "mindfulness" →
        fw ≠ "psychodynamic" →
        (getPersonalizedSafetyPlan (Except.ok (some fw))).coping_strategies =
          (copingStrategiesTable.lookup "humanistic").getD []) ∧
      (getPersonalizedSafetyPlan (Except.ok (some fw))).immediate_steps =
        ["Ensure your immediate safety",
         "Remove any means of self-harm from your environment",
         "Contact a crisis resource or trusted person"] ∧
      (getPersonalizedSafetyPlan (Except.ok (some fw))).support_resources = CRISIS_RESOURCES ∧
      CRISIS_RESOURCES.length = 3 := by
  intro fw
  refine ⟨?_, ?_, rfl, rfl, rfl⟩
  · rintro (rfl | rfl | rfl | rfl) <;> decide
  · intro h1 h2 h3 h4
    have e1 : (fw == "cognitive_behavioral") = false := beq_eq_false_iff_ne.mpr h1
    have e2 : (fw == "humanistic") = false := beq_eq_false_iff_ne.mpr h2
    have e3 : (fw == "mindfulness") = false := beq_eq_false_iff_ne.mpr h3
    have e4 : (fw == "psychodynamic") = false := beq_eq_false_iff_ne.mpr h4
    simp only [getPersonalizedSafetyPlan, copingStrategiesTable, List.lookup,
      Option.getD_some, e1, e2, e3, e4]
    rfl

/-- C8 witness: the amended table read off at the stored framework
`mindfulness`. -/
theorem personalizedSafetyPlan_table_witness :
    (getPersonalizedSafetyPlan (Except.ok (some "mindfulness"))).coping_strategies =
      (copingStrategiesTable.lookup "mindfulness").getD [] :=
  (personalizedSafetyPlan_table "mindfulness").1 (Or.inr (Or.inr (Or.inl rfl)))

/-- Helper: every high-risk keyword is already lowercase, so lowercasing a
message cannot destroy an occurrence. -/
theorem highRisk_lower_stable :
    ∀ k ∈ CRISIS_KEYWORDS.high_risk, k.toList.map Char.toLower = k.toList := by
  decide

/-- Helper: the threshold classification of a score of at least 10 is never
`low`. -/
theorem levelFromScore_not_low (s : Nat) (h : 10 ≤ s) : levelFromScore s ≠ RiskLevel.low := by
  unfold levelFromScore
  split_ifs <;> first | decide | omega

/-- C2. A message containing any high-risk keyword is never assessed `low`,
whatever the emotional state (present or absent) and whatever the
incident-history outcome. -/
theorem highRiskKeyword_never_low :
    ∀ (message : String) (emotionalState : Option EmotionalState)
      (recentIncidents : Option Nat) (kw : String),
      kw ∈ CRISIS_KEYWORDS.high_risk → kw.toList <:+: message.toList →
      (assessCrisisRisk message emotionalState recentIncidents).riskLevel ≠ RiskLevel.low := by
  intro message es inc kw hkw hinf
  have hlow : kw.toList <:+: lowerList message := by
    have h2 := hinf.map Char.toLower
    rw [highRisk_lower_stable kw hkw] at h2
    exact h2
  have hmem : kw ∈ hiMatched (lowerList message) :=
    List.mem_filter.mpr ⟨hkw, by simpa [listIncludes] using hlow⟩
  have hlen : 0 < (hiMatched (lowerList message)).length :=
    List.length_pos.mpr (List.ne_nil_of_mem hmem)
  have hks : 10 ≤ keywordScore (lowerList message) := by
    unfold keywordScore
    omega
  have hscore : 10 ≤ keywordScore (lowerList message) +
      (if intensityHit es then 5 else 0) +
      (match emotionLabel es with | some _ => 5 | none => 0) := by
    generalize (if intensityHit es then 5 else 0) = a
    generalize (match emotionLabel es with | some _ => 5 | none => (0 : Nat)) = b
    omega
  simp only [assessCrisisRisk]
  rcases inc with _ | n
  · exact levelFromScore_not_low _ hscore
  · by_cases hn : 0 < n
    · simp only [if_pos hn]
      by_cases hmod :
          levelFromScore (keywordScore (lowerList message) +
            (if intensityHit es then 5 else 0) +
            (match emotionLabel es with | some _ => 5 | none => 0)) = RiskLevel.moderate
      · simp [hmod]
      · simpa [hmod] using levelFromScore_not_low _ hscore
    · simpa [hn] using levelFromScore_not_low _ hscore

/-- C2 witness: the keyword `end my life` occurs in
`"I want to end my life"`, which is assessed above `low` (here with no
emotional state and no incident history). -/
theorem highRiskKeyword_never_low_witness :
    (assessCrisisRisk "I want to end my life" none none).riskLevel ≠ RiskLevel.low :=
  highRiskKeyword_never_low "I want to end my life" none none "end my life"
    (by decide) (by decide)

/-- C10. The assessment's score is positive exactly when its factor list is
non-empty: every scoring contribution records exactly one labeled factor,
and no factor is recorded without a score contribution. -/
theorem riskScore_pos_iff_riskFactors_nonempty :
    ∀ (message : String) (emotionalState : Option EmotionalState)
      (recentIncidents : Option Nat),
      0 < (assessCrisisRisk message emotionalState recentIncidents).riskScore ↔
        (assessCrisisRisk message emotionalState recentIncidents).riskFactors ≠ [] := by
  intro m es inc
  have key : ∀ (ml : List Char),
      (0 < keywordScore ml + (if intensityHit es then 5 else 0) +
        (match emotionLabel es with | some _ => 5 | none => 0)) ↔
      (keywordFactors ml ++
        (if intensityHit es then ["extreme_emotional_intensity"] else []) ++
        (match emotionLabel es with
         | some e => ["high_risk_emotion: " ++ e]
         | none => []) ≠ []) := by
    intro ml
    rw [← List.length_pos]
    unfold keywordScore keywordFactors
    cases intensityHit es <;> rcases emotionLabel es with _ | e <;>
      simp [List.length_append] <;> omega
  simp only [assessCrisisRisk]
  rcases inc with _ | n
  · exact key (lowerList m)
  · by_cases hn : 0 < n
    · simp [hn]
    · simpa [hn] using key (lowerList m)

/-- Helper: the weight of a high-risk keyword contribution is the constant 10. -/
theorem weight_comp_high : (contributionWeight ∘ Contribution.highKw) = fun _ : String => 10 := rfl

/-- Helper: the weight of a moderate-risk keyword contribution is the constant 5. -/
theorem weight_comp_mod : (contributionWeight ∘ Contribution.modKw) = fun _ : String => 5 := rfl

/-- Helper: the weight of a self-harm keyword contribution is the constant 7. -/
theorem weight_comp_self : (contributionWeight ∘ Contribution.selfKw) = fun _ : String => 7 := rfl

/-- Helper: the assessment's score is the weight sum over the contribution
list read off the same input. -/
theorem assess_riskScore_eq_contrib_sum :
    ∀ (message : String) (emotionalState : Option EmotionalState)
      (recentIncidents : Option Nat),
      (assessCrisisRisk message emotionalState recentIncidents).riskScore =
        ((contribList message emotionalState recentIncidents).map contributionWeight).sum := by
  intro m es inc
  simp only [assessCrisisRisk, contribList]
  rcases inc with _ | n
  · cases intensityHit es <;> rcases emotionLabel es with _ | e <;>
      simp [keywordScore, List.map_append, List.sum_append, List.map_map,
        weight_comp_high, weight_comp_mod, weight_comp_self,
        contributionWeight, sum_map_constNat] <;> ring
  · by_cases hn : 0 < n <;>
      cases intensityHit es <;> rcases emotionLabel es with _ | e <;>
        simp [hn, keywordScore, List.map_append, List.sum_append, List.map_map,
          weight_comp_high, weight_comp_mod, weight_comp_self,
          contributionWeight, sum_map_constNat] <;> ring

/-- C3. `riskScore` is the weight sum (10 per high-risk keyword, 5 per
moderate-risk keyword, 7 per self-harm keyword, 5 for each of the intensity,
emotion and history bonuses) over the multiset of matched contributions — an
order-independent function of that multiset — and it is monotone: an input
whose matched contributions include another input's (in particular, one more
distinct matched contribution with the rest held fixed) scores at least as
much. -/
theorem riskScore_contribution_sum_monotone :
    ∀ (message : String) (emotionalState : Option EmotionalState)
      (recentIncidents : Option Nat),
      ((assessCrisisRisk message emotionalState recentIncidents).riskScore =
        ((contribMultiset message emotionalState recentIncidents).map contributionWeight).sum) ∧
      ∀ (m2 : String) (es2 : Option EmotionalState) (inc2 : Option Nat),
        contribMultiset message emotionalState recentIncidents ≤ contribMultiset m2 es2 inc2 →
        (assessCrisisRisk message emotionalState recentIncidents).riskScore ≤
          (assessCrisisRisk m2 es2 inc2).riskScore := by
  intro m es inc
  have hsum : ∀ (a : String) (b : Option EmotionalState) (c : Option Nat),
      (assessCrisisRisk a b c).riskScore =
        ((contribMultiset a b c).map contributionWeight).sum := by
    intro a b c
    rw [assess_riskScore_eq_contrib_sum]
    simp [contribMultiset]
  refine ⟨hsum m es inc, ?_⟩
  intro m2 es2 inc2 hle
  rw [hsum, hsum]
  obtain ⟨u, hu⟩ := Multiset.le_iff_exists_add.mp hle
  rw [hu, Multiset.map_add, Multiset.sum_add]
  exact Nat.le_add_right _ _

/-- C3 witness: the empty message's (empty) contributions are contained in
those of `"suicide"`, so its score is no larger. -/
theorem riskScore_contribution_sum_monotone_witness :
    (assessCrisisRisk "" none none).riskScore ≤ (assessCrisisRisk "suicide" none none).riskScore :=
  (riskScore_contribution_sum_monotone "" none none).2 "suicide" none none
    (by rw [show contribMultiset "" none none = 0 from rfl]; exact Multiset.zero_le _)

/-- C4 counterexample: in the history `[{user, "thought breath"}]` the
categories `cbt` and `mindfulness` (among others) tie at the maximal counter
1, yet the inferred primary modality is `cbt` — the first category in
iteration order — not the claimed default `humanistic`. -/
theorem modality_tie_resolves_to_first_category :
    (localInferTherapeuticPreferences
        [{ role := "user", content := "thought breath" }]).primaryModality = "cbt" ∧
    indicatorScore [{ role := "user", content := "thought breath" }]
        ((patterns.lookup "cbt").getD []) = 1 ∧
    indicatorScore [{ role := "user", content := "thought breath" }]
        ((patterns.lookup "mindfulness").getD []) = 1 ∧
    (scoredPatterns [{ role := "user", content := "thought breath" }]).all
        (fun p => p.2 ≤ 1) = true := by
  decide

/-- C4 (amended). The local inference sets `primaryModality` to the first
category in the fixed iteration order (cbt, humanistic, mindfulness,
psychodynamic, existential, somatic, solution_focused,
dialectical_behavioral, narrative, acceptance_commitment) whose keyword
counter attains the maximum; only when every counter is zero does the fixed
default `humanistic` apply (ties between categories are NOT sent to the
default). -/
theorem primaryModality_first_at_max :
    ∀ (conversations : List Message),
      (localInferTherapeuticPreferences conversations).primaryModality =
        firstMaxModality conversations := by
  intro convs
  have hmain : (pickPrimary convs).1 = firstMaxModality convs := by
    unfold pickPrimary firstMaxModality
    have hspec := foldl_maxStep_spec (scoredPatterns convs) ("humanistic", 0)
    set l := scoredPatterns convs with hl
    set r := l.foldl maxStep ("humanistic", 0) with hr
    rcases hspec with ⟨heq, hall⟩ | ⟨t1, t2, hdec, hpos, hall, hpre⟩
    · have hm : (l.map Prod.snd).foldr max 0 = 0 := by
        have hb := foldr_max_le (l.map Prod.snd) 0 (by
          intro x hx
          obtain ⟨p, hp, rfl⟩ := List.mem_map.mp hx
          simpa using hall p hp)
        omega
      rw [if_pos hm, heq]
    · have hrmem : r ∈ l := by
        rw [hdec]
        exact List.mem_append_right _ (List.mem_cons_self _ _)
      have hub : ∀ x ∈ l.map Prod.snd, x ≤ r.2 := by
        intro x hx
        obtain ⟨p, hp, rfl⟩ := List.mem_map.mp hx
        exact hall p hp
      have hm : (l.map Prod.snd).foldr max 0 = r.2 :=
        le_antisymm (foldr_max_le _ _ hub)
          (le_foldr_max _ _ (List.mem_map_of_mem Prod.snd hrmem))
      have hpos2 : 0 < r.2 := hpos
      have hm0 : ¬(l.map Prod.snd).foldr max 0 = 0 := by
        rw [hm]
        omega
      have hfind : l.find? (fun p => p.2 == (l.map Prod.snd).foldr max 0) = some r := by
        simp only [hm]
        rw [hdec, find?_append_of_all_false _ t1 _
          (fun p hp => beq_eq_false_iff_ne.mpr (Nat.ne_of_lt (hpre p hp)))]
        exact List.find?_cons_of_pos _ (by simp)
      rw [if_neg hm0, hfind]
      rfl
  exact hmain

/-- C6 counterexample: a numeric directness of 4 (the humanistic profile
value, which the claim's `≤ 4` threshold covers) triggers no softening at
all, and for the string trigger `"high"` the applied mapping is not the
inverse of the softening: the softened form of `"You need to rest"` is
mapped to `"You should rest"`, not back to `"You need to rest"`. -/
theorem adaptation_thresholds_and_inverse_fail :
    adaptResponseToCommunicationStyle "You should rest"
        (some { directness := StyleVal.num 4, warmth := StyleVal.num 9,
                structureLevel := StyleVal.num 3, pace := StyleVal.num 5 }) 0 =
      "You should rest" ∧
    makeLessDirect "You need to rest" = "It could be helpful to rest" ∧
    adaptResponseToCommunicationStyle "It could be helpful to rest"
        (some { directness := StyleVal.str "high", warmth := StyleVal.str "moderate",
                structureLevel := StyleVal.str "moderate", pace := StyleVal.str "moderate" }) 0 =
      "You should rest" := by
  decide

/-- C6 (amended). The post-adaptation softens via the fixed table exactly
when the profile's directness is the string `"low"` and hardens exactly when
it is the string `"high"` (numeric directness values trigger nothing); the
hardening table is `You might consider → I recommend`,
`It could be helpful to → You should`, `I wonder if → I suggest`,
`Perhaps you could explore → Try this`, which inverts the softening table
only on its last pair. -/
theorem adaptResponse_string_triggers :
    (∀ (text : String) (r : Fin 5),
        adaptResponseToCommunicationStyle text none r = text) ∧
    (∀ (text : String) (style : CommunicationStyle) (r : Fin 5),
        adaptResponseToCommunicationStyle text (some style) r =
          (if style.warmth = StyleVal.str "very_high" then
            increaseWarmth
              (if style.directness = StyleVal.str "low" then makeLessDirect text
               else if style.directness = StyleVal.str "high" then makeMoreDirect text
               else text) r
           else
            if style.directness = StyleVal.str "low" then makeLessDirect text
            else if style.directness = StyleVal.str "high" then makeMoreDirect text
            else text)) ∧
    makeLessDirect "You should rest" = "You might consider rest" ∧
    makeLessDirect "You need to rest" = "It could be helpful to rest" ∧
    makeLessDirect "I recommend rest" = "I wonder if rest" ∧
    makeLessDirect "Try this grounding exercise" = "Perhaps you could explore grounding exercise" ∧
    makeMoreDirect "You might consider rest" = "I recommend rest" ∧
    makeMoreDirect "It could be helpful to rest" = "You should rest" ∧
    makeMoreDirect "I wonder if rest" = "I suggest rest" ∧
    makeMoreDirect "Perhaps you could explore grounding exercise" = "Try this grounding exercise" := by
  refine ⟨fun text r => rfl, fun text style r => rfl, ?_, ?_, ?_, ?_, ?_, ?_, ?_, ?_⟩ <;> decide
